import Mathlib

/-!
Verification of the ip-family abstraction layer (src/lib.rs): a shallow
embedding of the runtime `IpFamily` tag, the concrete address types
`Ipv4Addr` / `Ipv6Addr`, the socket-address types `SocketAddrV4` /
`SocketAddrV6`, the family-erased sums `IpAddr` / `SocketAddr`, and the
operations the library exposes on them.  Machine integers (u8, u16, u32,
u128) are modelled as `Nat`; every operation of the library only moves
bytes around or compares them, so no wrap-around arithmetic arises.
-/

namespace IpFamilyRs

/-- An IPv4 address: four octets in network order (std `Ipv4Addr`,
which stores `[u8; 4]`). -/
structure Ipv4Addr where
  a : Nat
  b : Nat
  c : Nat
  d : Nat
deriving DecidableEq

/-- The octets are bytes: each field fits in a u8. -/
def Ipv4Addr.Valid (x : Ipv4Addr) : Prop :=
  x.a < 256 ∧ x.b < 256 ∧ x.c < 256 ∧ x.d < 256

instance (x : Ipv4Addr) : Decidable x.Valid := by
  unfold Ipv4Addr.Valid; infer_instance

/-- std `Ipv4Addr::LOCALHOST` = 127.0.0.1. -/
def Ipv4Addr.LOCALHOST : Ipv4Addr := ⟨127, 0, 0, 1⟩

/-- std `Ipv4Addr::UNSPECIFIED` = 0.0.0.0. -/
def Ipv4Addr.UNSPECIFIED : Ipv4Addr := ⟨0, 0, 0, 0⟩

/-- std `Ipv4Addr::octets`: the four bytes in network order. -/
def Ipv4Addr.octets (x : Ipv4Addr) : List Nat :=
  [x.a, x.b, x.c, x.d]

/-- std `<Ipv4Addr as From<[u8; 4]>>::from`: build an address from its four
octets.  The fixed length 4 of the Rust array type is modelled by the
`Option`: exactly the length-4 byte sequences construct an address. -/
def Ipv4Addr.ofOctets : List Nat → Option Ipv4Addr
  | [a, b, c, d] => some ⟨a, b, c, d⟩
  | _ => none

/-- The numeric (big-endian u32) value of the address, as in
std `<u32 as From<Ipv4Addr>>::from`. -/
def Ipv4Addr.toNat (x : Ipv4Addr) : Nat :=
  ((x.a * 256 + x.b) * 256 + x.c) * 256 + x.d

/-- std `<Ipv4Addr as From<u32>>::from`: big-endian bytes of a u32. -/
def Ipv4Addr.ofNat (n : Nat) : Ipv4Addr :=
  ⟨n / 2 ^ 24 % 256, n / 2 ^ 16 % 256, n / 2 ^ 8 % 256, n % 256⟩

/-- std `Ipv4Addr::is_unspecified`: the u32 value is zero. -/
def Ipv4Addr.is_unspecified (x : Ipv4Addr) : Bool :=
  x.toNat == 0

/-- std `Ipv4Addr::is_loopback`: first octet is 127. -/
def Ipv4Addr.is_loopback (x : Ipv4Addr) : Bool :=
  x.a == 127

/-- std `Ipv4Addr::is_multicast`: first octet in 224..=239. -/
def Ipv4Addr.is_multicast (x : Ipv4Addr) : Bool :=
  decide (224 ≤ x.a) && decide (x.a ≤ 239)

/-- std derived `Ord` on `Ipv4Addr`: lexicographic on the octet array. -/
def Ipv4Addr.lt (x y : Ipv4Addr) : Prop :=
  x.a < y.a ∨ (x.a = y.a ∧ (x.b < y.b ∨ (x.b = y.b ∧
    (x.c < y.c ∨ (x.c = y.c ∧ x.d < y.d)))))

instance (x y : Ipv4Addr) : Decidable (x.lt y) := by
  unfold Ipv4Addr.lt; infer_instance

/-- An IPv6 address: sixteen octets in network order (std `Ipv6Addr`,
which stores `[u8; 16]`). -/
structure Ipv6Addr where
  o0 : Nat
  o1 : Nat
  o2 : Nat
  o3 : Nat
  o4 : Nat
  o5 : Nat
  o6 : Nat
  o7 : Nat
  o8 : Nat
  o9 : Nat
  o10 : Nat
  o11 : Nat
  o12 : Nat
  o13 : Nat
  o14 : Nat
  o15 : Nat
deriving DecidableEq

/-- std `Ipv6Addr::LOCALHOST` = ::1. -/
def Ipv6Addr.LOCALHOST : Ipv6Addr :=
  ⟨0, 0, 0, 0, 0, 0, 0, 0, 0, 0, 0, 0, 0, 0, 0, 1⟩

/-- std `Ipv6Addr::UNSPECIFIED` = ::. -/
def Ipv6Addr.UNSPECIFIED : Ipv6Addr :=
  ⟨0, 0, 0, 0, 0, 0, 0, 0, 0, 0, 0, 0, 0, 0, 0, 0⟩

/-- std `Ipv6Addr::octets`: the sixteen bytes in network order. -/
def Ipv6Addr.octets (x : Ipv6Addr) : List Nat :=
  [x.o0, x.o1, x.o2, x.o3, x.o4, x.o5, x.o6, x.o7,
   x.o8, x.o9, x.o10, x.o11, x.o12, x.o13, x.o14, x.o15]

/-- std `<Ipv6Addr as From<[u8; 16]>>::from`; the fixed length 16 of the
Rust array type is modelled by the `Option`. -/
def Ipv6Addr.ofOctets : List Nat → Option Ipv6Addr
  | [a0, a1, a2, a3, a4, a5, a6, a7, a8, a9, a10, a11, a12, a13, a14, a15] =>
    some ⟨a0, a1, a2, a3, a4, a5, a6, a7, a8, a9, a10, a11, a12, a13, a14, a15⟩
  | _ => none

/-- The numeric (big-endian u128) value, as in std
`<u128 as From<Ipv6Addr>>::from`. -/
def Ipv6Addr.toNat (x : Ipv6Addr) : Nat :=
  x.octets.foldl (fun acc o => acc * 256 + o) 0

/-- std `Ipv6Addr::segments`: the eight 16-bit groups in network order. -/
def Ipv6Addr.segments (x : Ipv6Addr) : List Nat :=
  [x.o0 * 256 + x.o1, x.o2 * 256 + x.o3, x.o4 * 256 + x.o5,
   x.o6 * 256 + x.o7, x.o8 * 256 + x.o9, x.o10 * 256 + x.o11,
   x.o12 * 256 + x.o13, x.o14 * 256 + x.o15]

/-- The octets are bytes: each field fits in a u8. -/
def Ipv6Addr.Valid (x : Ipv6Addr) : Prop :=
  x.o0 < 256 ∧ x.o1 < 256 ∧ x.o2 < 256 ∧ x.o3 < 256 ∧
  x.o4 < 256 ∧ x.o5 < 256 ∧ x.o6 < 256 ∧ x.o7 < 256 ∧
  x.o8 < 256 ∧ x.o9 < 256 ∧ x.o10 < 256 ∧ x.o11 < 256 ∧
  x.o12 < 256 ∧ x.o13 < 256 ∧ x.o14 < 256 ∧ x.o15 < 256

instance (x : Ipv6Addr) : Decidable x.Valid := by
  unfold Ipv6Addr.Valid; infer_instance

/-- std derived `Ord` on `Ipv6Addr`: lexicographic on the octet array. -/
def Ipv6Addr.lt (x y : Ipv6Addr) : Prop :=
  x.o0 < y.o0 ∨ (x.o0 = y.o0 ∧ (x.o1 < y.o1 ∨ (x.o1 = y.o1 ∧ (x.o2 < y.o2 ∨
  (x.o2 = y.o2 ∧ (x.o3 < y.o3 ∨ (x.o3 = y.o3 ∧ (x.o4 < y.o4 ∨ (x.o4 = y.o4
  ∧ (x.o5 < y.o5 ∨ (x.o5 = y.o5 ∧ (x.o6 < y.o6 ∨ (x.o6 = y.o6 ∧ (x.o7 <
  y.o7 ∨ (x.o7 = y.o7 ∧ (x.o8 < y.o8 ∨ (x.o8 = y.o8 ∧ (x.o9 < y.o9 ∨ (x.o9
  = y.o9 ∧ (x.o10 < y.o10 ∨ (x.o10 = y.o10 ∧ (x.o11 < y.o11 ∨ (x.o11 =
  y.o11 ∧ (x.o12 < y.o12 ∨ (x.o12 = y.o12 ∧ (x.o13 < y.o13 ∨ (x.o13 =
  y.o13 ∧ (x.o14 < y.o14 ∨ (x.o14 = y.o14 ∧ (x.o15 <
  y.o15))))))))))))))))))))))))))))))

instance (x y : Ipv6Addr) : Decidable (x.lt y) := by
  unfold Ipv6Addr.lt; infer_instance

/-- std `Ipv6Addr::is_unspecified`: the u128 value is zero. -/
def Ipv6Addr.is_unspecified (x : Ipv6Addr) : Bool :=
  x.toNat == 0

/-- std `Ipv6Addr::is_loopback`: the u128 value is one (the address is ::1). -/
def Ipv6Addr.is_loopback (x : Ipv6Addr) : Bool :=
  x.toNat == 1

/-- std `Ipv6Addr::is_multicast`: `(segments()[0] & 0xff00) == 0xff00`. -/
def Ipv6Addr.is_multicast (x : Ipv6Addr) : Bool :=
  (x.o0 * 256 + x.o1) &&& 0xff00 == 0xff00

/-- Split a character list into the groups between (and around) the dots. -/
def splitDots : List Char → List (List Char)
  | [] => [[]]
  | c :: cs =>
    if c = '.' then [] :: splitDots cs
    else
      match splitDots cs with
      | [] => [[c]]
      | g :: gs => (c :: g) :: gs

/-- Modelled from the spec: one decimal group of a v4 dotted-quad literal
(the repository only requires `Ipv4Addr: FromStr`; the parser body lives in
the standard library, outside src/).  A group is a non-empty run of ASCII
digits with no redundant leading zero, whose value is at most 255; anything
else is a format error, modelled as `none`. -/
def parseOctetGroup (cs : List Char) : Option Nat :=
  if cs ≠ [] ∧ cs.all Char.isDigit ∧ (cs.head? = some '0' → cs = ['0']) then
    let n := cs.foldl (fun acc c => acc * 10 + (c.toNat - 48)) 0
    if n ≤ 255 then some n else none
  else none

/-- Modelled from the spec: parsing a textual v4 address literal
(`Ipv4Addr: FromStr`, body outside src/).  The text must be exactly four
valid decimal groups separated by dots; a `FormatError` is modelled as
`none`. -/
def Ipv4Addr.parse (s : String) : Option Ipv4Addr :=
  match (splitDots s.data).mapM parseOctetGroup with
  | some [a, b, c, d] => some ⟨a, b, c, d⟩
  | _ => none

/-- The family-erased address sum, std `IpAddr`. -/
inductive IpAddr where
  | V4 (addr : Ipv4Addr)
  | V6 (addr : Ipv6Addr)
deriving DecidableEq

/-- An IPv4 socket address, std `SocketAddrV4`: address and 16-bit port. -/
structure SocketAddrV4 where
  ip : Ipv4Addr
  port : Nat
deriving DecidableEq

/-- `<SocketAddrV4 as IpFamilySocketAddr>::new` (lib.rs line 117),
delegating to std `SocketAddrV4::new(ip, port)`. -/
def SocketAddrV4.new (ip : Ipv4Addr) (port : Nat) : SocketAddrV4 :=
  ⟨ip, port⟩

/-- `SocketAddrV4::set_ip` (lib.rs line 125): replace the address. -/
def SocketAddrV4.set_ip (s : SocketAddrV4) (new_ip : Ipv4Addr) : SocketAddrV4 :=
  { s with ip := new_ip }

/-- `SocketAddrV4::set_port` (lib.rs line 133): replace the port. -/
def SocketAddrV4.set_port (s : SocketAddrV4) (new_port : Nat) : SocketAddrV4 :=
  { s with port := new_port }

/-- An IPv6 socket address, std `SocketAddrV6`: address, 16-bit port,
flow label and scope id. -/
structure SocketAddrV6 where
  ip : Ipv6Addr
  port : Nat
  flowinfo : Nat
  scope_id : Nat
deriving DecidableEq

/-- std `SocketAddrV6::new(ip, port, flowinfo, scope_id)`. -/
def SocketAddrV6.newStd (ip : Ipv6Addr) (port flowinfo scope_id : Nat) :
    SocketAddrV6 :=
  ⟨ip, port, flowinfo, scope_id⟩

/-- `<SocketAddrV6 as IpFamilySocketAddr>::new` (lib.rs line 181):
`Self::new(ip, port, 0, 0)` — flow label and scope id are zero. -/
def SocketAddrV6.new (ip : Ipv6Addr) (port : Nat) : SocketAddrV6 :=
  SocketAddrV6.newStd ip port 0 0

/-- `SocketAddrV6::set_ip` (lib.rs line 189): replace the address. -/
def SocketAddrV6.set_ip (s : SocketAddrV6) (new_ip : Ipv6Addr) : SocketAddrV6 :=
  { s with ip := new_ip }

/-- `SocketAddrV6::set_port` (lib.rs line 197): replace the port. -/
def SocketAddrV6.set_port (s : SocketAddrV6) (new_port : Nat) : SocketAddrV6 :=
  { s with port := new_port }

/-- Lowercase hexadecimal text of one 16-bit group, no leading zeros. -/
def hexGroup (n : Nat) : String :=
  String.mk (Nat.toDigits 16 n)

/-- Count the zero groups at the front of a segment list. -/
def leadingZeroSegs : List Nat → Nat
  | 0 :: rest => leadingZeroSegs rest + 1
  | _ => 0

/-- The start and length of the longest (leftmost on ties) run of zero
groups, scanning from position `i` with `best` the best run seen so far. -/
def longestZeroRun : Nat → List Nat → Nat × Nat → Nat × Nat
  | _, [], best => best
  | i, x :: rest, best =>
    let len := if x = 0 then leadingZeroSegs (x :: rest) else 0
    longestZeroRun (i + 1) rest (if best.2 < len then (i, len) else best)

/-- Modelled from the spec: the textual form of an IPv6 address (the
`Display` impl lives in the standard library, outside src/).  The
unspecified address prints as "::", the loopback address as "::1";
otherwise the longest run of two or more zero groups is compressed to
"::" and every group prints in lowercase hexadecimal. -/
def Ipv6Addr.toDisplay (x : Ipv6Addr) : String :=
  if x.is_unspecified then "::"
  else if x.is_loopback then "::1"
  else
    let segs := x.segments
    let best := longestZeroRun 0 segs (0, 0)
    if 1 < best.2 then
      String.intercalate ":" ((segs.take best.1).map hexGroup) ++ "::" ++
        String.intercalate ":" ((segs.drop (best.1 + best.2)).map hexGroup)
    else
      String.intercalate ":" (segs.map hexGroup)

/-- Modelled from the spec: the textual form of an IPv6 socket address
(`Display` impl outside src/): "[address]:port". -/
def SocketAddrV6.toDisplay (s : SocketAddrV6) : String :=
  "[" ++ s.ip.toDisplay ++ "]:" ++ Nat.repr s.port

/-- The family-erased socket-address sum, std `SocketAddr`. -/
inductive SocketAddr where
  | V4 (sa : SocketAddrV4)
  | V6 (sa : SocketAddrV6)
deriving DecidableEq

/-- std `SocketAddr::ip`: the embedded address, family-erased. -/
def SocketAddr.ip : SocketAddr → IpAddr
  | .V4 s => .V4 s.ip
  | .V6 s => .V6 s.ip

/-- The runtime family tag (lib.rs lines 202-206), with the derived
discriminant order V4 before V6. -/
inductive IpFamily where
  | V4
  | V6
deriving DecidableEq

/-- The discriminant the derived `Ord` on `IpFamily` compares. -/
def IpFamily.discriminant : IpFamily → Nat
  | .V4 => 0
  | .V6 => 1

/-- Derived `Ord`/`PartialOrd` on `IpFamily`: order of declaration. -/
def IpFamily.lt (f g : IpFamily) : Prop :=
  f.discriminant < g.discriminant

instance (f g : IpFamily) : Decidable (f.lt g) := by
  unfold IpFamily.lt; infer_instance

/-- `IpFamily::localhost` (lib.rs lines 209-214). -/
def IpFamily.localhost : IpFamily → IpAddr
  | .V4 => .V4 Ipv4Addr.LOCALHOST
  | .V6 => .V6 Ipv6Addr.LOCALHOST

/-- `IpFamily::unspecified` (lib.rs lines 216-221). -/
def IpFamily.unspecified : IpFamily → IpAddr
  | .V4 => .V4 Ipv4Addr.UNSPECIFIED
  | .V6 => .V6 Ipv6Addr.UNSPECIFIED

/-- `AsRef<IpFamily> for IpAddr` (lib.rs lines 224-231) combined with the
blanket `IpFamilyExt::family` (lib.rs lines 252-256), which copies the
referenced tag out: the tag of the active variant. -/
def IpAddr.family : IpAddr → IpFamily
  | .V4 _ => .V4
  | .V6 _ => .V6

/-- `AsRef<IpFamily> for SocketAddr` (lib.rs lines 233-240) combined with
`IpFamilyExt::family`: the tag of the active variant. -/
def SocketAddr.family : SocketAddr → IpFamily
  | .V4 _ => .V4
  | .V6 _ => .V6

/-- C1: for every family tag T, extracting the family of the generic address
returned by localhost(T) yields T, and likewise for unspecified(T). -/
theorem localhost_unspecified_family (t : IpFamily) :
    t.localhost.family = t ∧ t.unspecified.family = t := by
  cases t <;> exact ⟨rfl, rfl⟩

/-- C2: localhost returns the family-appropriate loopback generic address
(127.0.0.1 for V4, ::1 for V6) and unspecified returns the
family-appropriate all-zeros generic address (0.0.0.0 for V4, :: for V6);
both are total functions of the tag with no failure mode. -/
theorem localhost_unspecified_values :
    IpFamily.localhost .V4 = .V4 ⟨127, 0, 0, 1⟩ ∧
    IpFamily.localhost .V6 = .V6 ⟨0, 0, 0, 0, 0, 0, 0, 0, 0, 0, 0, 0, 0, 0, 0, 1⟩ ∧
    IpFamily.unspecified .V4 = .V4 ⟨0, 0, 0, 0⟩ ∧
    IpFamily.unspecified .V6 = .V6 ⟨0, 0, 0, 0, 0, 0, 0, 0, 0, 0, 0, 0, 0, 0, 0, 0⟩ :=
  ⟨rfl, rfl, rfl, rfl⟩

/-- C3: every socket address satisfies family(S) = family(ip(S)), and the
invariant still holds after any set_ip call (set_ip takes the
family-specific address type, so the family cannot change). -/
theorem sockaddr_family_matches_ip_family :
    (∀ s : SocketAddr, s.family = s.ip.family) ∧
    (∀ (s : SocketAddrV4) (a : Ipv4Addr),
      (SocketAddr.V4 (s.set_ip a)).family = (SocketAddr.V4 (s.set_ip a)).ip.family) ∧
    (∀ (s : SocketAddrV6) (a : Ipv6Addr),
      (SocketAddr.V6 (s.set_ip a)).family = (SocketAddr.V6 (s.set_ip a)).ip.family) := by
  refine ⟨fun s => ?_, fun s a => rfl, fun s a => rfl⟩
  cases s <;> rfl

/-- C4: family extraction from a generic address or generic socket-address
value is total (it is a Lean function) and returns V4 exactly on the v4
variant and V6 exactly on the v6 variant. -/
theorem family_extraction_matches_variant :
    (∀ a : IpAddr,
      (a.family = .V4 ↔ ∃ x, a = .V4 x) ∧ (a.family = .V6 ↔ ∃ x, a = .V6 x)) ∧
    (∀ s : SocketAddr,
      (s.family = .V4 ↔ ∃ x, s = .V4 x) ∧ (s.family = .V6 ↔ ∃ x, s = .V6 x)) := by
  constructor <;> intro v <;> cases v <;>
    simp [IpAddr.family, SocketAddr.family]

/-- C5: constructing an address from its own octets() byte sequence
(4 bytes for v4, 16 for v6) yields a value equal to the original. -/
theorem octets_roundtrip :
    (∀ a : Ipv4Addr, Ipv4Addr.ofOctets a.octets = some a) ∧
    (∀ a : Ipv6Addr, Ipv6Addr.ofOctets a.octets = some a) :=
  ⟨fun _ => rfl, fun _ => rfl⟩

/-- C6 counterexample: at the concrete address 8.8.8.8 none of
is_unspecified, is_loopback, is_multicast holds, so "exactly one of the
three holds" fails. -/
theorem predicate_exactly_one_fails :
    ((Ipv4Addr.mk 8 8 8 8).is_unspecified ||
     (Ipv4Addr.mk 8 8 8 8).is_loopback ||
     (Ipv4Addr.mk 8 8 8 8).is_multicast) = false := by
  decide

/-- C6 (amended): for every address, at most one of is_unspecified,
is_loopback, is_multicast holds (they are pairwise exclusive on the bit
pattern), and on the literal bit patterns 0.0.0.0 is unspecified and not
loopback, and 127.0.0.1 (resp. ::1) is loopback. -/
theorem predicates_mutually_exclusive :
    (∀ x : Ipv4Addr,
      (x.is_unspecified && x.is_loopback) = false ∧
      (x.is_unspecified && x.is_multicast) = false ∧
      (x.is_loopback && x.is_multicast) = false) ∧
    (∀ x : Ipv6Addr,
      (x.is_unspecified && x.is_loopback) = false ∧
      (x.is_unspecified && x.is_multicast) = false ∧
      (x.is_loopback && x.is_multicast) = false) ∧
    Ipv4Addr.UNSPECIFIED.is_unspecified = true ∧
    Ipv4Addr.UNSPECIFIED.is_loopback = false ∧
    Ipv4Addr.LOCALHOST.is_loopback = true ∧
    Ipv6Addr.UNSPECIFIED.is_unspecified = true ∧
    Ipv6Addr.UNSPECIFIED.is_loopback = false ∧
    Ipv6Addr.LOCALHOST.is_loopback = true := by
  refine ⟨fun x => ?_, fun x => ?_, by decide, by decide, by decide,
    by decide, by decide, by decide⟩
  · obtain ⟨a, b, c, d⟩ := x
    simp only [Ipv4Addr.is_unspecified, Ipv4Addr.is_loopback,
      Ipv4Addr.is_multicast, Ipv4Addr.toNat, Bool.and_eq_false_iff,
      beq_eq_false_iff_ne, ne_eq, decide_eq_false_iff_not, not_le,
      Bool.and_eq_false_iff]
    refine ⟨?_, ?_, ?_⟩ <;> omega
  · obtain ⟨a0, a1, a2, a3, a4, a5, a6, a7, a8, a9, a10, a11, a12, a13, a14, a15⟩ := x
    simp only [Ipv6Addr.is_unspecified, Ipv6Addr.is_loopback,
      Ipv6Addr.is_multicast, Ipv6Addr.toNat, Ipv6Addr.octets, List.foldl,
      Bool.and_eq_false_iff, beq_eq_false_iff_ne, ne_eq]
    refine ⟨by omega, ?_, ?_⟩ <;>
      · by_cases h0 : a0 = 0
        · by_cases h1 : a1 = 0
          · right
            subst h0
            subst h1
            decide
          · left
            omega
        · left
          omega

/-- C7: parsing "256.0.0.1" as a v4 address fails (FormatError, modelled as
none), while parsing "192.168.1.1" succeeds and the resulting address has
octets [192, 168, 1, 1]. -/
theorem parse_scenarios :
    Ipv4Addr.parse "256.0.0.1" = none ∧
    (Ipv4Addr.parse "192.168.1.1").map Ipv4Addr.octets = some [192, 168, 1, 1] := by
  constructor <;> decide

/-- C8: for the v6 family, new(address, port) yields flow label 0 and scope
id 0; no operation of the contract (new, set_ip, set_port) produces a
non-zero flow label or scope id from a zero one; and the socket address
built from ::1 and port 8080 displays as "[::1]:8080". -/
theorem v6_new_zero_flow_scope :
    (∀ (ip : Ipv6Addr) (p : Nat),
      (SocketAddrV6.new ip p).flowinfo = 0 ∧ (SocketAddrV6.new ip p).scope_id = 0) ∧
    (∀ (s : SocketAddrV6) (ip : Ipv6Addr),
      (s.set_ip ip).flowinfo = s.flowinfo ∧ (s.set_ip ip).scope_id = s.scope_id) ∧
    (∀ (s : SocketAddrV6) (p : Nat),
      (s.set_port p).flowinfo = s.flowinfo ∧ (s.set_port p).scope_id = s.scope_id) ∧
    (SocketAddrV6.new Ipv6Addr.LOCALHOST 8080).toDisplay = "[::1]:8080" :=
  ⟨fun _ _ => ⟨rfl, rfl⟩, fun _ _ => ⟨rfl, rfl⟩, fun _ _ => ⟨rfl, rfl⟩, by decide⟩

set_option maxHeartbeats 4000000 in
/-- C9: the family tag's order is total with V4 < V6; the v4 and v6
address orders are each total and, on byte-valued octets, agree with the
numeric (big-endian) address value; and the address parsed from "10.0.0.1"
is less than the one parsed from "10.0.0.2". -/
theorem ordering_properties :
    IpFamily.lt .V4 .V6 ∧
    (∀ f g : IpFamily, f.lt g ∨ f = g ∨ g.lt f) ∧
    (∀ x y : Ipv4Addr, x.Valid → y.Valid → (x.lt y ↔ x.toNat < y.toNat)) ∧
    (∀ x y : Ipv4Addr, x.lt y ∨ x = y ∨ y.lt x) ∧
    (∀ x y : Ipv6Addr, x.Valid → y.Valid → (x.lt y ↔ x.toNat < y.toNat)) ∧
    (∀ x y : Ipv6Addr, x.lt y ∨ x = y ∨ y.lt x) ∧
    Ipv4Addr.parse "10.0.0.1" = some ⟨10, 0, 0, 1⟩ ∧
    Ipv4Addr.parse "10.0.0.2" = some ⟨10, 0, 0, 2⟩ ∧
    Ipv4Addr.lt ⟨10, 0, 0, 1⟩ ⟨10, 0, 0, 2⟩ := by
  refine ⟨by decide, fun f g => by cases f <;> cases g <;> simp [IpFamily.lt,
    IpFamily.discriminant], fun x y hx hy => ?_, fun x y => ?_,
    fun x y hx hy => ?_, fun x y => ?_,
    by decide, by decide, by decide⟩
  · obtain ⟨a, b, c, d⟩ := x
    obtain ⟨e, f, g, h⟩ := y
    simp only [Ipv4Addr.Valid] at hx hy
    simp only [Ipv4Addr.lt, Ipv4Addr.toNat] at hx hy ⊢
    omega
  · obtain ⟨a, b, c, d⟩ := x
    obtain ⟨e, f, g, h⟩ := y
    simp only [Ipv4Addr.lt, Ipv4Addr.mk.injEq]
    omega
  · obtain ⟨a0, a1, a2, a3, a4, a5, a6, a7, a8, a9, a10, a11, a12, a13, a14, a15⟩ := x
    obtain ⟨b0, b1, b2, b3, b4, b5, b6, b7, b8, b9, b10, b11, b12, b13, b14, b15⟩ := y
    simp only [Ipv6Addr.Valid] at hx hy
    simp only [Ipv6Addr.lt, Ipv6Addr.toNat, Ipv6Addr.octets, List.foldl] at hx hy ⊢
    omega
  · obtain ⟨a0, a1, a2, a3, a4, a5, a6, a7, a8, a9, a10, a11, a12, a13, a14, a15⟩ := x
    obtain ⟨b0, b1, b2, b3, b4, b5, b6, b7, b8, b9, b10, b11, b12, b13, b14, b15⟩ := y
    simp only [Ipv6Addr.lt, Ipv6Addr.mk.injEq]
    omega

/-- C10: set_port leaves ip() unchanged and set_ip leaves port() unchanged
for both families; for v6, set_ip and set_port also leave the flow label
and the scope id unchanged. -/
theorem setters_frame :
    (∀ (s : SocketAddrV4) (p : Nat), (s.set_port p).ip = s.ip) ∧
    (∀ (s : SocketAddrV4) (a : Ipv4Addr), (s.set_ip a).port = s.port) ∧
    (∀ (s : SocketAddrV6) (p : Nat), (s.set_port p).ip = s.ip) ∧
    (∀ (s : SocketAddrV6) (a : Ipv6Addr), (s.set_ip a).port = s.port) ∧
    (∀ (s : SocketAddrV6) (a : Ipv6Addr),
      (s.set_ip a).flowinfo = s.flowinfo ∧ (s.set_ip a).scope_id = s.scope_id) ∧
    (∀ (s : SocketAddrV6) (p : Nat),
      (s.set_port p).flowinfo = s.flowinfo ∧ (s.set_port p).scope_id = s.scope_id) :=
  ⟨fun _ _ => rfl, fun _ _ => rfl, fun _ _ => rfl, fun _ _ => rfl,
   fun _ _ => ⟨rfl, rfl⟩, fun _ _ => ⟨rfl, rfl⟩⟩

end IpFamilyRs
